import Mathlib

/-!
Shallow embedding of the jasdel/aws-lambda-mux dispatch layer (Go package
lambdamux) and proofs about its routing, registration, timeout-wrapping and
gateway-adapter behaviour.

Source files embedded:
- apigateway_handler.go : canonical request/response shapes, the
  ResourceHandler capability, the ServeResource (resource router) and
  ServeMethod (method router) multiplexers, and the APIGatewayProxy adapter.
- timeout_handler.go : the timeoutHandler decorator racing a wrapped handler
  against a context deadline.

Modelling conventions:
- A Go error value is Option String (none = nil error); fmt.Errorf format
  strings are resolved to the concrete concatenated message.
- A Go map[string]ResourceHandler is modelled as the lookup function
  String -> Option ResourceHandler; map assignment is pointwise functional
  update, which has exactly the map semantics the routers rely on
  (exact-key lookup, last write wins).
- The ResourceHandler interface is modelled as the function type of its
  single method, so routers, leaf handlers and decorators are all values of
  the same type, as in Go where all of them satisfy the interface.
- context.Context is modelled as the list of timeout durations that have
  been layered onto it; context.WithTimeout appends one. Routers pass the
  context through untouched, which is all the routing claims depend on.
- The select race inside timeoutHandler.ServeResource is inherently
  nondeterministic; it is modelled by an explicit RaceOutcome parameter
  recording which of the two channel signals fired first, and the theorems
  quantify over it.
-/

/-- Go context.Context, reduced to the data the embedded code touches: the
stack of timeout durations derived onto it via context.WithTimeout. -/
structure Context where
  deadlines : List Nat
deriving Repr, DecidableEq

/-- context.WithTimeout: derives a child context carrying one more deadline. -/
def Context.withTimeout (c : Context) (dur : Nat) : Context :=
  { deadlines := c.deadlines ++ [dur] }

/-- The background context used as a concrete starting point. -/
def Context.background : Context := { deadlines := [] }

/-- APIGatewayProxyRequest (apigateway_handler.go): the canonical request.
The routers read only Resource and HTTPMethod; Path and Body stand for the
opaque payload carried through unchanged. -/
structure APIGatewayProxyRequest where
  Resource : String
  HTTPMethod : String
  Path : String
  Body : String
deriving Repr, DecidableEq

/-- APIGatewayProxyResponse (apigateway_handler.go): the canonical response.
StatusCode and Body stand for the serialized payload. -/
structure APIGatewayProxyResponse where
  StatusCode : Int
  Body : String
deriving Repr, DecidableEq

/-- The Go zero value of APIGatewayProxyResponse, what a bare
`resp APIGatewayProxyResponse` named return holds when returned untouched. -/
def APIGatewayProxyResponse.empty : APIGatewayProxyResponse :=
  { StatusCode := 0, Body := "" }

/-- A Go error result: none models a nil error, some models a non-nil error
carrying its message. -/
abbrev GoError := Option String

/-- The ResourceHandler interface (apigateway_handler.go), modelled by the
function type of its single method ServeResource. ResourceHandlerFunc in the
source makes any such function a handler, so the types coincide. -/
def ResourceHandler :=
  Context → APIGatewayProxyRequest → APIGatewayProxyResponse × GoError

/-- ServeResource (apigateway_handler.go): resource router state, the
resources map from exact resource name to handler. -/
structure ServeResource where
  resources : String → Option ResourceHandler

/-- NewServeResource: a resource router with an empty resources map. -/
def NewServeResource : ServeResource :=
  { resources := fun _ => none }

/-- ServeResource.ServeResource (apigateway_handler.go lines 108-116):
look up req.Resource in the resources map; on a miss return the zero
response and the not-found error; on a hit delegate unchanged. -/
def ServeResource.serveResource (s : ServeResource) (ctx : Context)
    (req : APIGatewayProxyRequest) : APIGatewayProxyResponse × GoError :=
  match s.resources req.Resource with
  | none =>
      (APIGatewayProxyResponse.empty,
        some ("resource handler not found for " ++ req.Resource))
  | some h => h ctx req

/-- ServeResource.Handle (apigateway_handler.go lines 119-122): map
assignment s.resources[resource] = handler; returns the updated router
(the Go method returns the receiver pointer for chaining). -/
def ServeResource.Handle (s : ServeResource) (resource : String)
    (handler : ResourceHandler) : ServeResource :=
  { resources := fun k => if k = resource then some handler else s.resources k }

/-- strings.ToUpper from the Go standard library, modelled character-wise
(ASCII uppercasing; HTTP method names are ASCII). Mapped structurally over
the character list so that it evaluates on literals. -/
def stringsToUpper (s : String) : String := String.mk (s.data.map Char.toUpper)

/-- ServeMethod (apigateway_handler.go): method router state, the methods
map from upper-cased HTTP method name to handler. -/
structure ServeMethod where
  methods : String → Option ResourceHandler

/-- NewServeMethod: a method router with an empty methods map. -/
def NewServeMethod : ServeMethod :=
  { methods := fun _ => none }

/-- ServeMethod.ServeResource (apigateway_handler.go lines 138-146):
look up the raw req.HTTPMethod (no normalization at dispatch) in the methods
map; on a miss return the zero response and an error naming resource and
method; on a hit delegate unchanged. -/
def ServeMethod.serveResource (s : ServeMethod) (ctx : Context)
    (req : APIGatewayProxyRequest) : APIGatewayProxyResponse × GoError :=
  match s.methods req.HTTPMethod with
  | none =>
      (APIGatewayProxyResponse.empty,
        some ("method handler not found for " ++ req.Resource ++ ":"
          ++ req.HTTPMethod))
  | some h => h ctx req

/-- ServeMethod.Handle (apigateway_handler.go lines 152-156): map assignment
s.methods[strings.ToUpper(method)] = handler; returns the updated router. -/
def ServeMethod.Handle (s : ServeMethod) (method : String)
    (handler : ResourceHandler) : ServeMethod :=
  { methods := fun k =>
      if k = stringsToUpper method then some handler else s.methods k }

/-- timeoutHandler (timeout_handler.go): configured duration plus wrapped
handler, immutable after construction. -/
structure TimeoutHandler where
  Timeout : Nat
  Handler : ResourceHandler

/-- ResourceHandlerWithTimeout (timeout_handler.go lines 15-20): wraps a
handler with a configured timeout. -/
def ResourceHandlerWithTimeout (dur : Nat) (handler : ResourceHandler) :
    TimeoutHandler :=
  { Timeout := dur, Handler := handler }

/-- Which signal the select statement in timeoutHandler.ServeResource saw
first: ctxDone carries the non-nil ctx.Err() message (deadline exceeded or
canceled) observed when the derived context fired before the handler
goroutine closed the done channel; handlerDone means the goroutine finished
first. -/
inductive RaceOutcome where
  | ctxDone (ctxErr : String)
  | handlerDone
deriving Repr, DecidableEq

/-- timeoutHandler.ServeResource (timeout_handler.go lines 23-43): derive a
child context with the configured timeout, run the wrapped handler on that
context in a goroutine, and race the goroutine against ctx.Done(). If the
context fires first, return the freshly-constructed zero response with
ctx.Err(), discarding whatever the goroutine later writes; if the goroutine
finishes first, return its response and error unchanged. The race winner is
the explicit outcome parameter. -/
def TimeoutHandler.serveResource (h : TimeoutHandler) (outcome : RaceOutcome)
    (ctx : Context) (req : APIGatewayProxyRequest) :
    APIGatewayProxyResponse × GoError :=
  let ctx2 := ctx.withTimeout h.Timeout
  match outcome with
  | RaceOutcome.ctxDone ctxErr => (APIGatewayProxyResponse.empty, some ctxErr)
  | RaceOutcome.handlerDone => h.Handler ctx2 req

/-- APIGatewayProxy (apigateway_handler.go): the gateway adapter holding the
top-level handler. -/
structure APIGatewayProxy where
  Handler : ResourceHandler

/-- APIGatewayProxy.Invoke (apigateway_handler.go lines 65-83). The decode
step (json.Unmarshal into APIGatewayProxyRequest) and the encode step
(json.Marshal of the response) come from the external encoding/json
collaborator, so they are passed in as parameters; Except.error carries the
collaborator failure message. Decode failure returns nil output and the
wrapping invalid-event error; a handler error is returned as-is with nil
output; encode failure returns nil output and the wrapping marshal error;
otherwise the encoded bytes and nil error. -/
def APIGatewayProxy.Invoke
    (unmarshal : List Nat → Except String APIGatewayProxyRequest)
    (marshal : APIGatewayProxyResponse → Except String (List Nat))
    (p : APIGatewayProxy) (ctx : Context) (payload : List Nat) :
    Option (List Nat) × GoError :=
  match unmarshal payload with
  | Except.error e =>
      (none,
        some ("invalid lambda event, expect lambdamux.APIGatewayProxyRequest, "
          ++ e))
  | Except.ok req =>
      match p.Handler ctx req with
      | (_, some err) => (none, some err)
      | (resp, none) =>
          match marshal resp with
          | Except.error e =>
              (none,
                some ("failed to marshal lambdamux.APIGatewayProxyResponse, "
                  ++ e))
          | Except.ok out => (some out, none)

/-- Fold a list of Handle registrations onto a resource router, in order. -/
def ServeResource.handleAll (s : ServeResource)
    (regs : List (String × ResourceHandler)) : ServeResource :=
  regs.foldl (fun acc p => acc.Handle p.1 p.2) s

/-- Fold a list of Handle registrations onto a method router, in order. -/
def ServeMethod.handleAll (s : ServeMethod)
    (regs : List (String × ResourceHandler)) : ServeMethod :=
  regs.foldl (fun acc p => acc.Handle p.1 p.2) s

/-- The handler most recently registered under exact key k in the
registration sequence regs, if any. -/
def lastRegistered (regs : List (String × ResourceHandler)) (k : String) :
    Option ResourceHandler :=
  (regs.reverse.find? (fun p => k = p.1)).map Prod.snd

/-- The handler most recently registered under a method name whose
upper-cased form is k, if any. -/
def lastRegisteredMethod (regs : List (String × ResourceHandler))
    (k : String) : Option ResourceHandler :=
  (regs.reverse.find? (fun p => k = stringsToUpper p.1)).map Prod.snd

/-- A concrete leaf handler used by witnesses: status 200, body ok. -/
def okHandler : ResourceHandler :=
  fun _ _ => ({ StatusCode := 200, Body := "ok" }, none)

/-- A second concrete leaf handler used by witnesses: status 201. -/
def createdHandler : ResourceHandler :=
  fun _ _ => ({ StatusCode := 201, Body := "created" }, none)

/-- A concrete failing leaf handler used by witnesses. -/
def failingHandler : ResourceHandler :=
  fun _ _ => (APIGatewayProxyResponse.empty, some "boom")

/-- A concrete request used by witnesses. -/
def sampleReq : APIGatewayProxyRequest :=
  { Resource := "/orders", HTTPMethod := "GET", Path := "/orders", Body := "" }

/-- A concrete request with a lower-case method, used by witnesses. -/
def lowerReq : APIGatewayProxyRequest :=
  { Resource := "/orders", HTTPMethod := "get", Path := "/orders", Body := "" }

/-- A concrete failing unmarshal collaborator used by witnesses. -/
def badUnmarshal : List Nat → Except String APIGatewayProxyRequest :=
  fun _ => Except.error "unexpected end of JSON input"

/-- A concrete succeeding unmarshal collaborator used by witnesses. -/
def okUnmarshal : List Nat → Except String APIGatewayProxyRequest :=
  fun _ => Except.ok sampleReq

/-- A concrete succeeding marshal collaborator used by witnesses. -/
def okMarshal : APIGatewayProxyResponse → Except String (List Nat) :=
  fun _ => Except.ok [123]

/-- A concrete failing marshal collaborator used by witnesses. -/
def badMarshal : APIGatewayProxyResponse → Except String (List Nat) :=
  fun _ => Except.error "json: unsupported type"

/-- Unfolding lemma: folding a cons of registrations. -/
theorem ServeResource.handleAllResource_cons (s : ServeResource)
    (p : String × ResourceHandler) (rest : List (String × ResourceHandler)) :
    s.handleAll (p :: rest) = (s.Handle p.1 p.2).handleAll rest := rfl

/-- Unfolding lemma: folding a cons of method registrations. -/
theorem ServeMethod.handleAllMethod_cons (s : ServeMethod)
    (p : String × ResourceHandler) (rest : List (String × ResourceHandler)) :
    s.handleAll (p :: rest) = (s.Handle p.1 p.2).handleAll rest := rfl

/-- The resources map after a sequence of registrations: the most recent
registration under exactly the looked-up key wins, otherwise the prior map
is consulted. -/
theorem ServeResource.handleAll_resources
    (regs : List (String × ResourceHandler)) (s : ServeResource)
    (k : String) :
    (s.handleAll regs).resources k =
      (lastRegistered regs k).or (s.resources k) := by
  induction regs generalizing s with
  | nil =>
      simp [ServeResource.handleAll, lastRegistered, Option.or]
  | cons p rest ih =>
      rw [ServeResource.handleAllResource_cons, ih]
      unfold lastRegistered
      rw [List.reverse_cons, List.find?_append]
      cases hfind : rest.reverse.find? (fun q => k = q.1) with
      | some q =>
          simp [lastRegistered, hfind, Option.or]
      | none =>
          simp only [lastRegistered, hfind, Option.map, Option.or,
            ServeResource.Handle, List.find?]
          by_cases hk : k = p.1
          · simp [hk]
          · simp [hk]

/-- The methods map after a sequence of registrations: the most recent
registration whose upper-cased name is the looked-up key wins, otherwise the
prior map is consulted. -/
theorem ServeMethod.handleAll_methods
    (regs : List (String × ResourceHandler)) (s : ServeMethod)
    (k : String) :
    (s.handleAll regs).methods k =
      (lastRegisteredMethod regs k).or (s.methods k) := by
  induction regs generalizing s with
  | nil =>
      simp [ServeMethod.handleAll, lastRegisteredMethod, Option.or]
  | cons p rest ih =>
      rw [ServeMethod.handleAllMethod_cons, ih]
      unfold lastRegisteredMethod
      rw [List.reverse_cons, List.find?_append]
      cases hfind : rest.reverse.find? (fun q => k = stringsToUpper q.1) with
      | some q =>
          simp [lastRegisteredMethod, hfind, Option.or]
      | none =>
          simp only [lastRegisteredMethod, hfind, Option.map, Option.or,
            ServeMethod.Handle, List.find?]
          by_cases hk : k = stringsToUpper p.1
          · simp [hk]
          · simp [hk]

/-- Claim C2: resource matching is exact and case-sensitive. Dispatch follows
the resources map at exactly req.Resource (hit delegates, miss errors), a
registration changes the lookup result exactly at its own key under
byte-for-byte string equality, and in particular registering "/Items" does
not match a request for "/items". -/
theorem resource_match_exact_case_sensitive
    (s : ServeResource) (ctx : Context) (req : APIGatewayProxyRequest)
    (k : String) (h : ResourceHandler) :
    (s.resources req.Resource = some h →
      s.serveResource ctx req = h ctx req) ∧
    (s.resources req.Resource = none →
      s.serveResource ctx req =
        (APIGatewayProxyResponse.empty,
          some ("resource handler not found for " ++ req.Resource))) ∧
    ((s.Handle k h).resources req.Resource =
      if req.Resource = k then some h else s.resources req.Resource) ∧
    ((NewServeResource.Handle "/Items" h).serveResource ctx
        { Resource := "/items", HTTPMethod := "GET", Path := "/items",
          Body := "" } =
      (APIGatewayProxyResponse.empty,
        some "resource handler not found for /items")) := by
  refine ⟨fun hs => ?_, fun hs => ?_, rfl, ?_⟩
  · simp [ServeResource.serveResource, hs]
  · simp [ServeResource.serveResource, hs]
  · simp [ServeResource.serveResource, ServeResource.Handle, NewServeResource]

/-- Witness for C2 at concrete inputs: a registered resource is dispatched to
its handler and an unregistered one produces the not-found error. -/
theorem resource_match_exact_case_sensitive_witness :
    (NewServeResource.Handle "/orders" okHandler).serveResource
        Context.background sampleReq =
      okHandler Context.background sampleReq ∧
    NewServeResource.serveResource Context.background sampleReq =
      (APIGatewayProxyResponse.empty,
        some "resource handler not found for /orders") :=
  ⟨(resource_match_exact_case_sensitive
      (NewServeResource.Handle "/orders" okHandler) Context.background
      sampleReq "/orders" okHandler).1
      (by simp [ServeResource.Handle, NewServeResource, sampleReq]),
   (resource_match_exact_case_sensitive NewServeResource Context.background
      sampleReq "/orders" okHandler).2.1 rfl⟩

/-- Claim C3: last-write-wins registration, for both routers. If the most
recent registration under the dispatch key of the request (the exact
resource for ServeResource, a method whose upper-cased form equals the raw
request method for ServeMethod) carries handler h, dispatch reaches exactly
h, with no error from the replaced registrations. -/
theorem last_write_wins
    (rregs mregs : List (String × ResourceHandler)) (ctx : Context)
    (req : APIGatewayProxyRequest) (h hm : ResourceHandler) :
    (lastRegistered rregs req.Resource = some h →
      (NewServeResource.handleAll rregs).serveResource ctx req = h ctx req) ∧
    (lastRegisteredMethod mregs req.HTTPMethod = some hm →
      (NewServeMethod.handleAll mregs).serveResource ctx req = hm ctx req) := by
  constructor
  · intro hlast
    have hres : (NewServeResource.handleAll rregs).resources req.Resource
        = some h := by
      rw [ServeResource.handleAll_resources, hlast]
      rfl
    simp [ServeResource.serveResource, hres]
  · intro hlast
    have hres : (NewServeMethod.handleAll mregs).methods req.HTTPMethod
        = some hm := by
      rw [ServeMethod.handleAll_methods, hlast]
      rfl
    simp [ServeMethod.serveResource, hres]

/-- Witness for C3 at concrete inputs: registering twice under the same
resource key, and twice under two case variants of the same method name,
dispatches to the handler registered last in each router. -/
theorem last_write_wins_witness :
    (NewServeResource.handleAll
        [("/orders", failingHandler), ("/orders", okHandler)]).serveResource
        Context.background sampleReq =
      okHandler Context.background sampleReq ∧
    (NewServeMethod.handleAll
        [("get", failingHandler), ("Get", createdHandler)]).serveResource
        Context.background sampleReq =
      createdHandler Context.background sampleReq :=
  ⟨(last_write_wins [("/orders", failingHandler), ("/orders", okHandler)]
      [] Context.background sampleReq okHandler okHandler).1
      (by rfl),
   (last_write_wins []
      [("get", failingHandler), ("Get", createdHandler)] Context.background
      sampleReq createdHandler createdHandler).2
      (by rfl)⟩

/-- Claim C4: resource routing miss. When req.Resource is not a registered
key, ServeResource.serveResource returns the zero-value response with a
non-nil error naming the unmatched resource, and no registered handler is
invoked: the result coincides with that of the router with no registrations
at all. -/
theorem resource_routing_miss (s : ServeResource) (ctx : Context)
    (req : APIGatewayProxyRequest)
    (hmiss : s.resources req.Resource = none) :
    s.serveResource ctx req =
      (APIGatewayProxyResponse.empty,
        some ("resource handler not found for " ++ req.Resource)) ∧
    s.serveResource ctx req = NewServeResource.serveResource ctx req := by
  constructor
  · simp [ServeResource.serveResource, hmiss]
  · simp [ServeResource.serveResource, hmiss, NewServeResource]

/-- Witness for C4: a router knowing only /orders misses on /unknown. -/
theorem resource_routing_miss_witness :
    (NewServeResource.Handle "/orders" okHandler).serveResource
        Context.background
        { Resource := "/unknown", HTTPMethod := "GET", Path := "/unknown",
          Body := "" } =
      (APIGatewayProxyResponse.empty,
        some "resource handler not found for /unknown") :=
  (resource_routing_miss (NewServeResource.Handle "/orders" okHandler)
    Context.background
    { Resource := "/unknown", HTTPMethod := "GET", Path := "/unknown",
      Body := "" } (by rfl)).1

/-- Claim C5: method routing miss. When req.HTTPMethod is not a key of the
methods map, ServeMethod.serveResource returns the zero-value response with
a non-nil error naming both the resource and the unmatched method, and no
registered handler is invoked: the result coincides with that of the method
router with no registrations at all. -/
theorem method_routing_miss (s : ServeMethod) (ctx : Context)
    (req : APIGatewayProxyRequest)
    (hmiss : s.methods req.HTTPMethod = none) :
    s.serveResource ctx req =
      (APIGatewayProxyResponse.empty,
        some ("method handler not found for " ++ req.Resource ++ ":"
          ++ req.HTTPMethod)) ∧
    s.serveResource ctx req = NewServeMethod.serveResource ctx req := by
  constructor
  · simp [ServeMethod.serveResource, hmiss]
  · simp [ServeMethod.serveResource, hmiss, NewServeMethod]

/-- Witness for C5: a method router knowing only GET misses on POST, naming
both the resource and the method. -/
theorem method_routing_miss_witness :
    (NewServeMethod.Handle "GET" okHandler).serveResource Context.background
        { Resource := "/orders", HTTPMethod := "POST", Path := "/orders",
          Body := "" } =
      (APIGatewayProxyResponse.empty,
        some "method handler not found for /orders:POST") :=
  (method_routing_miss (NewServeMethod.Handle "GET" okHandler)
    Context.background
    { Resource := "/orders", HTTPMethod := "POST", Path := "/orders",
      Body := "" } (by rfl)).1

/-- Claim C6: pass-through on match. Whenever lookup finds a handler for the
dispatch key, either router calls that handler with the very context and
request it received and returns the handler result unchanged, whether the
handler succeeds or fails. -/
theorem dispatch_pass_through (s : ServeResource) (t : ServeMethod)
    (ctx : Context) (req : APIGatewayProxyRequest) (h hm : ResourceHandler) :
    (s.resources req.Resource = some h →
      s.serveResource ctx req = h ctx req) ∧
    (t.methods req.HTTPMethod = some hm →
      t.serveResource ctx req = hm ctx req) := by
  constructor
  · intro hs
    simp [ServeResource.serveResource, hs]
  · intro hs
    simp [ServeMethod.serveResource, hs]

/-- Witness for C6: a succeeding handler result and a failing handler result
are both forwarded unchanged by the two routers. -/
theorem dispatch_pass_through_witness :
    (NewServeResource.Handle "/orders" okHandler).serveResource
        Context.background sampleReq =
      ({ StatusCode := 200, Body := "ok" }, none) ∧
    (NewServeMethod.Handle "GET" failingHandler).serveResource
        Context.background sampleReq =
      (APIGatewayProxyResponse.empty, some "boom") :=
  ⟨(dispatch_pass_through (NewServeResource.Handle "/orders" okHandler)
      NewServeMethod Context.background sampleReq okHandler okHandler).1
      (by rfl),
   (dispatch_pass_through NewServeResource
      (NewServeMethod.Handle "GET" failingHandler) Context.background
      sampleReq failingHandler failingHandler).2 (by rfl)⟩

/-- Claim C10: registration frame property. Handle changes the registry only
at its own key (the upper-cased key for ServeMethod): every other key maps
exactly as before, the changed key now maps to the new handler, and the
router value returned for chaining carries exactly this updated registry. -/
theorem handle_frame (s : ServeResource) (t : ServeMethod)
    (k k2 m : String) (h : ResourceHandler) :
    (k2 ≠ k → (s.Handle k h).resources k2 = s.resources k2) ∧
    ((s.Handle k h).resources k = some h) ∧
    (k2 ≠ stringsToUpper m → (t.Handle m h).methods k2 = t.methods k2) ∧
    ((t.Handle m h).methods (stringsToUpper m) = some h) := by
  refine ⟨fun hne => ?_, ?_, fun hne => ?_, ?_⟩
  · simp [ServeResource.Handle, hne]
  · simp [ServeResource.Handle]
  · simp [ServeMethod.Handle, hne]
  · simp [ServeMethod.Handle]

/-- Witness for C10: registering /orders leaves the mapping of /items
untouched, and registering the method get leaves DELETE untouched. -/
theorem handle_frame_witness :
    ((NewServeResource.Handle "/items" createdHandler).Handle "/orders"
        okHandler).resources "/items" =
      (NewServeResource.Handle "/items" createdHandler).resources "/items" ∧
    ((NewServeMethod.Handle "DELETE" createdHandler).Handle "get"
        okHandler).methods "DELETE" =
      (NewServeMethod.Handle "DELETE" createdHandler).methods "DELETE" :=
  ⟨(handle_frame (NewServeResource.Handle "/items" createdHandler)
      NewServeMethod "/orders" "/items" "get" okHandler).1 (by decide),
   (handle_frame NewServeResource
      (NewServeMethod.Handle "DELETE" createdHandler) "/orders" "DELETE"
      "get" okHandler).2.2.1 (by decide)⟩

/-- Counterexample for claim C1 as stated: after registering the method GET,
a request whose HTTPMethod is the case variant get is not dispatched to the
registered handler; ServeMethod.serveResource looks up the raw request
method, finds no entry, and returns the routing-miss error instead of the
handler result. -/
theorem method_case_insensitive_counterexample :
    (NewServeMethod.Handle "GET" okHandler).serveResource Context.background
        lowerReq =
      (APIGatewayProxyResponse.empty,
        some "method handler not found for /orders:get") ∧
    (NewServeMethod.Handle "GET" okHandler).serveResource Context.background
        lowerReq ≠
      okHandler Context.background lowerReq := by
  constructor
  · rfl
  · decide

/-- Claim C1 amended: method matching is case-insensitive on the
registration side only. Handle upper-cases the method name before storing,
so a request is dispatched to the registered handler exactly when its raw
HTTPMethod equals the upper-cased registered name; other request methods
fall back to the prior registry. Registering under different case variants
of one method collapses to the same single entry. -/
theorem method_matching_amended (s : ServeMethod) (m m2 : String)
    (h h2 : ResourceHandler) (ctx : Context)
    (req : APIGatewayProxyRequest) :
    (req.HTTPMethod = stringsToUpper m →
      (s.Handle m h).serveResource ctx req = h ctx req) ∧
    (req.HTTPMethod ≠ stringsToUpper m →
      (s.Handle m h).serveResource ctx req = s.serveResource ctx req) ∧
    (stringsToUpper m = stringsToUpper m2 →
      s.Handle m h2 = s.Handle m2 h2) := by
  refine ⟨fun hs => ?_, fun hs => ?_, fun hs => ?_⟩
  · simp [ServeMethod.serveResource, ServeMethod.Handle, hs]
  · simp [ServeMethod.serveResource, ServeMethod.Handle, hs]
  · simp only [ServeMethod.Handle, hs]

/-- Witness for the amended C1: registering get matches an upper-case GET
request; registering GET does not match a lower-case get request, which is
routed as if the registration were absent; and registering under get or GeT
produces the identical router. -/
theorem method_matching_amended_witness :
    (NewServeMethod.Handle "get" okHandler).serveResource Context.background
        sampleReq =
      okHandler Context.background sampleReq ∧
    (NewServeMethod.Handle "GET" okHandler).serveResource Context.background
        lowerReq =
      NewServeMethod.serveResource Context.background lowerReq ∧
    NewServeMethod.Handle "get" okHandler =
      NewServeMethod.Handle "GeT" okHandler :=
  ⟨(method_matching_amended NewServeMethod "get" "get" okHandler okHandler
      Context.background sampleReq).1 (by decide),
   (method_matching_amended NewServeMethod "GET" "GET" okHandler okHandler
      Context.background lowerReq).2.1 (by decide),
   (method_matching_amended NewServeMethod "get" "GeT" okHandler okHandler
      Context.background lowerReq).2.2 (by decide)⟩

/-- Claim C7: timeout wrapper pass-through. When the wrapped handler signals
completion before the derived context fires, the wrapper returns exactly the
response and error the handler produced on the derived timeout context,
unchanged. -/
theorem timeout_pass_through (dur : Nat) (handler : ResourceHandler)
    (ctx : Context) (req : APIGatewayProxyRequest) :
    (ResourceHandlerWithTimeout dur handler).serveResource
        RaceOutcome.handlerDone ctx req =
      handler (ctx.withTimeout dur) req := rfl

/-- Claim C8: timeout abandonment. When the derived context fires before the
wrapped handler signals completion, the wrapper returns the zero-value
response paired with the non-nil context error, and the result is
independent of the wrapped handler: its eventual output is discarded and
never surfaced. -/
theorem timeout_abandonment (dur : Nat) (handler handler2 : ResourceHandler)
    (ctxErr : String) (ctx : Context) (req : APIGatewayProxyRequest) :
    (ResourceHandlerWithTimeout dur handler).serveResource
        (RaceOutcome.ctxDone ctxErr) ctx req =
      (APIGatewayProxyResponse.empty, some ctxErr) ∧
    (ResourceHandlerWithTimeout dur handler).serveResource
        (RaceOutcome.ctxDone ctxErr) ctx req =
      (ResourceHandlerWithTimeout dur handler2).serveResource
        (RaceOutcome.ctxDone ctxErr) ctx req :=
  ⟨rfl, rfl⟩

/-- Claim C9: gateway adapter error separation. A failing unmarshal yields
nil output with the wrapping invalid-event error and the handler is never
consulted (the result is independent of it); on a successful unmarshal the
handler value at the decoded request decides everything: a handler error is
returned verbatim with nil output, a failing marshal of a successful
response yields the wrapping marshal error, and otherwise the encoded bytes
are returned with a nil error. -/
theorem gateway_error_separation
    (unmarshal : List Nat → Except String APIGatewayProxyRequest)
    (marshal : APIGatewayProxyResponse → Except String (List Nat))
    (hdl hdl2 : ResourceHandler) (ctx : Context) (payload : List Nat) :
    (∀ e, unmarshal payload = Except.error e →
      APIGatewayProxy.Invoke unmarshal marshal { Handler := hdl } ctx
          payload =
        (none,
          some
            ("invalid lambda event, expect lambdamux.APIGatewayProxyRequest, "
              ++ e)) ∧
      APIGatewayProxy.Invoke unmarshal marshal { Handler := hdl } ctx
          payload =
        APIGatewayProxy.Invoke unmarshal marshal { Handler := hdl2 } ctx
          payload) ∧
    (∀ req resp err, unmarshal payload = Except.ok req →
      hdl ctx req = (resp, some err) →
      APIGatewayProxy.Invoke unmarshal marshal { Handler := hdl } ctx
          payload =
        (none, some err)) ∧
    (∀ req resp e, unmarshal payload = Except.ok req →
      hdl ctx req = (resp, none) → marshal resp = Except.error e →
      APIGatewayProxy.Invoke unmarshal marshal { Handler := hdl } ctx
          payload =
        (none,
          some ("failed to marshal lambdamux.APIGatewayProxyResponse, "
            ++ e))) ∧
    (∀ req resp out, unmarshal payload = Except.ok req →
      hdl ctx req = (resp, none) → marshal resp = Except.ok out →
      APIGatewayProxy.Invoke unmarshal marshal { Handler := hdl } ctx
          payload =
        (some out, none)) := by
  refine ⟨fun e he => ⟨?_, ?_⟩, fun req resp err hu hh => ?_,
    fun req resp e hu hh hm => ?_, fun req resp out hu hh hm => ?_⟩
  · simp [APIGatewayProxy.Invoke, he]
  · simp [APIGatewayProxy.Invoke, he]
  · simp [APIGatewayProxy.Invoke, hu, hh]
  · simp [APIGatewayProxy.Invoke, hu, hh, hm]
  · simp [APIGatewayProxy.Invoke, hu, hh, hm]

/-- Witness for C9 exercising all four branches with concrete collaborators:
decode failure, handler failure passed through verbatim, encode failure, and
full success. -/
theorem gateway_error_separation_witness :
    APIGatewayProxy.Invoke badUnmarshal okMarshal { Handler := okHandler }
        Context.background [0] =
      (none,
        some
          ("invalid lambda event, expect lambdamux.APIGatewayProxyRequest, "
            ++ "unexpected end of JSON input")) ∧
    APIGatewayProxy.Invoke okUnmarshal okMarshal
        { Handler := failingHandler } Context.background [0] =
      (none, some "boom") ∧
    APIGatewayProxy.Invoke okUnmarshal badMarshal { Handler := okHandler }
        Context.background [0] =
      (none,
        some ("failed to marshal lambdamux.APIGatewayProxyResponse, "
          ++ "json: unsupported type")) ∧
    APIGatewayProxy.Invoke okUnmarshal okMarshal { Handler := okHandler }
        Context.background [0] =
      (some [123], none) :=
  ⟨((gateway_error_separation badUnmarshal okMarshal okHandler okHandler
      Context.background [0]).1 "unexpected end of JSON input" rfl).1,
   (gateway_error_separation okUnmarshal okMarshal failingHandler
      failingHandler Context.background [0]).2.1 sampleReq
      APIGatewayProxyResponse.empty "boom" rfl rfl,
   (gateway_error_separation okUnmarshal badMarshal okHandler okHandler
      Context.background [0]).2.2.1 sampleReq
      { StatusCode := 200, Body := "ok" } "json: unsupported type" rfl rfl
      rfl,
   (gateway_error_separation okUnmarshal okMarshal okHandler okHandler
      Context.background [0]).2.2.2 sampleReq
      { StatusCode := 200, Body := "ok" } [123] rfl rfl rfl⟩
